import Mathlib

/-!
Shallow embedding of `src/pycityagent/simulation/agentgroup.py` (class
`AgentGroup`): data model, initialization (`init_agents`), message dispatch
(`message_dispatch`), snapshot writing (`save_status`), stepping (`step`)
and the day-driven loop (`run`).  Stateful Python methods become explicit
state-passing functions `GroupState → GroupState × Option Err`; external
collaborator calls (simulator bind, broker connect/subscribe, per-agent step)
are parametrised by environment records that say which calls fail.
-/

namespace AgentGroupModel

/-- Python exceptions that can surface from the embedded code paths. -/
inductive Err
  | valueError
  | indexError
  | external (tag : String)
deriving DecidableEq, Repr

/-- `position["longlat_position"]` sub-record. -/
structure LngLat where
  longitude : Int
  latitude : Int
deriving DecidableEq, Repr

/-- The `position` memory value of a citizen agent; `aoiId = some x` models
the key `"aoi_position"` being present with `["aoi_id"] = x`, likewise
`laneId` for `"lane_position"` / `["lane_id"]`. -/
structure Position where
  longlat : LngLat
  aoiId : Option Int
  laneId : Option Int
deriving DecidableEq, Repr

/-- The `needs` memory value of a citizen agent. -/
structure Needs where
  hungry : Int
  tired : Int
  safe : Int
  social : Int
deriving DecidableEq, Repr

/-- An agent as seen by the group: its `_uuid`, whether
`issubclass(type(agent), InstitutionAgent)` holds, and the memory fields the
group reads (citizen fields `position`, `needs`, `current_step["intention"]`;
institution economic fields; and the profile payload exported at init). -/
structure Agent where
  uuid : String
  isInstitution : Bool
  position : Position
  needs : Needs
  intention : String
  profileBase : String
  ty : Int
  nominalGdp : Int
  realGdp : Int
  unemployment : Int
  wages : Int
  prices : Int
  inventory : Int
  price : Int
  interestRate : Int
  bracketCutoffs : Int
  bracketRates : Int
  employees : Int
  customers : Int
deriving DecidableEq, Repr

/-- Avro schema tags used when creating / appending to snapshot files
(`PROFILE_SCHEMA`, `DIALOG_SCHEMA`, `SURVEY_SCHEMA`, `STATUS_SCHEMA`,
`INSTITUTION_STATUS_SCHEMA`). -/
inductive Schema
  | profile
  | dialog
  | survey
  | citizenStatus
  | institutionStatus
deriving DecidableEq, Repr

/-- One record of the profile snapshot: the exported profile dict with
`profile['id'] = agent._uuid` set. -/
structure ProfileRec where
  id : String
  data : String
deriving DecidableEq, Repr

/-- One record of the citizen status snapshot (`STATUS_SCHEMA`). -/
structure CitizenStatus where
  id : String
  day : Int
  t : Int
  lng : Int
  lat : Int
  parent_id : Int
  action : String
  hungry : Int
  tired : Int
  safe : Int
  social : Int
  created_at : Int
deriving DecidableEq, Repr

/-- One record of the institution status snapshot
(`INSTITUTION_STATUS_SCHEMA`); `ty` stands for the `"type"` field. -/
structure InstitutionStatus where
  id : String
  day : Int
  t : Int
  ty : Int
  nominal_gdp : Int
  real_gdp : Int
  unemployment : Int
  wages : Int
  prices : Int
  inventory : Int
  price : Int
  interest_rate : Int
  bracket_cutoffs : Int
  bracket_rates : Int
  employees : Int
  customers : Int
deriving DecidableEq, Repr

/-- A status record is either a citizen or an institution record. -/
inductive StatusRecord
  | citizen (c : CitizenStatus)
  | institution (i : InstitutionStatus)
deriving DecidableEq, Repr

/-- Observable state of the group's snapshot files.  Creating a file with
mode `"wb"` is recorded as one entry in the corresponding creations list /
counter; appending a batch with mode `"a+b"` appends to `statusBatches`. -/
structure FileState where
  profileWrites : List (List ProfileRec)
  dialogCreates : Nat
  statusFileSchemas : List Schema
  surveyCreates : Nat
  statusBatches : List (Schema × List StatusRecord)
deriving DecidableEq, Repr

/-- The observable state of an `AgentGroup`: constructor attributes
(`agents`, `exp_id`, `enable_avro`), the `initialized` flag, the
`id2agent` dict (association list, later entries override earlier ones),
and the externally observable effects — broker subscriptions
`(topic, agent uuid)`, `start_listening` calls, dispatch tasks launched,
and the snapshot files. -/
structure GroupState where
  agents : List Agent
  expId : String
  enableAvro : Bool
  initialized : Bool
  id2agent : List (String × Agent)
  subscriptions : List (String × String)
  listening : Nat
  dispatchTasks : Nat
  files : FileState
deriving DecidableEq, Repr

/-- Python dict lookup on the association list: the LAST binding of a key
wins, as in a dict comprehension where later duplicates override. -/
def dictLookup (m : List (String × Agent)) (k : String) : Option Agent :=
  match m with
  | [] => none
  | (k', v) :: rest =>
    match dictLookup rest k with
    | some v' => some v'
    | none => if k' = k then some v else none

/-- Which external calls of `init_agents` fail: `agent.bind_to_simulator()`
keyed by agent uuid, `messager.connect()`, the `is_connected()` outcome, and
`messager.subscribe(topic, agent)` keyed by topic. -/
structure InitEnv where
  bindErr : String → Option Err
  connectErr : Option Err
  connected : Bool
  subscribeErr : String → Option Err

/-- The topic string the source builds:
`f"exps/{self.exp_id}/agents/{agent._uuid}/{kind}"`. -/
def topicOf (expId uuid kind : String) : String :=
  "exps/" ++ expId ++ "/agents/" ++ uuid ++ "/" ++ kind

/-- The four per-agent topics subscribed in `init_agents`, in source order. -/
def agentTopics (expId uuid : String) : List String :=
  [topicOf expId uuid "agent-chat", topicOf expId uuid "user-chat",
   topicOf expId uuid "user-survey", topicOf expId uuid "gather"]

/-- `for agent in self.agents: await agent.bind_to_simulator()` — sequential,
first failure propagates. -/
def bindPhase (env : InitEnv) : List Agent → Option Err
  | [] => none
  | a :: rest =>
    match env.bindErr a.uuid with
    | some e => some e
    | none => bindPhase env rest

/-- Subscribe one agent's topic list in order; a failure propagates, keeping
the subscriptions already registered. -/
def subscribeTopics (env : InitEnv) (uuid : String) (g : GroupState) :
    List String → GroupState × Option Err
  | [] => (g, none)
  | t :: rest =>
    match env.subscribeErr t with
    | some e => (g, some e)
    | none =>
      subscribeTopics env uuid
        { g with subscriptions := g.subscriptions ++ [(t, uuid)] } rest

/-- The subscription loop of `init_agents`: for every agent, its four topics. -/
def subscribeAgents (env : InitEnv) (g : GroupState) :
    List Agent → GroupState × Option Err
  | [] => (g, none)
  | a :: rest =>
    match subscribeTopics env a.uuid g (agentTopics g.expId a.uuid) with
    | (g', some e) => (g', some e)
    | (g', none) => subscribeAgents env g' rest

/-- `profile = (await agent.memory._profile.export())[0]; profile['id'] =
agent._uuid`. -/
def buildProfile (a : Agent) : ProfileRec :=
  { id := a.uuid, data := a.profileBase }

/-- The avro-file creation block of `init_agents` (runs when `enable_avro`):
a profile file with every agent's exported profile when `agents[0]` is not an
institution; a dialog file; a status file whose schema branches on
`agents[0]`; a survey file.  `self.agents[0]` on an empty list raises
`IndexError` before any file is touched. -/
def writeAvroFS (agents : List Agent) (fs : FileState) : FileState × Option Err :=
  match agents with
  | [] => (fs, some .indexError)
  | a0 :: _ =>
    let fs :=
      if !a0.isInstitution then
        { fs with profileWrites := fs.profileWrites ++ [agents.map buildProfile] }
      else fs
    let fs := { fs with dialogCreates := fs.dialogCreates + 1 }
    let fs :=
      { fs with statusFileSchemas := fs.statusFileSchemas ++
          [if !a0.isInstitution then Schema.citizenStatus else Schema.institutionStatus] }
    let fs := { fs with surveyCreates := fs.surveyCreates + 1 }
    (fs, none)

/-- The avro block applied to the group state. -/
def writeInitAvro (g : GroupState) : GroupState × Option Err :=
  match writeAvroFS g.agents g.files with
  | (fs, e) => ({ g with files := fs }, e)

/-- Tail of `init_agents` after the dispatch task is launched: create the
avro files when `enable_avro`, then set `initialized = True`.  An exception
from file creation leaves `initialized` untouched. -/
def avroPhase (g : GroupState) : GroupState × Option Err :=
  match (if g.enableAvro then writeInitAvro g else (g, none)) with
  | (g', some e) => (g', some e)
  | (g', none) => ({ g' with initialized := true }, none)

/-- Tail of `init_agents` after `id2agent` is rebuilt: `messager.connect()`;
if connected, `start_listening()` then subscribe every agent's four topics;
launch the dispatch task (`dispatchTasks + 1`); then the avro phase. -/
def connectPhase (env : InitEnv) (g : GroupState) : GroupState × Option Err :=
  match env.connectErr with
  | some e => (g, some e)
  | none =>
    match (if env.connected then
             subscribeAgents env { g with listening := g.listening + 1 } g.agents
           else (g, none)) with
    | (g', some e) => (g', some e)
    | (g', none) => avroPhase { g' with dispatchTasks := g'.dispatchTasks + 1 }

/-- `AgentGroup.init_agents`, in source order: bind every agent to the
simulator; rebuild `id2agent`; then the connect / subscribe / dispatch-task /
avro phases.  There is no early-return guard on `initialized`.  An exception
leaves the state mutated so far, as in Python. -/
def init_agents (env : InitEnv) (g : GroupState) : GroupState × Option Err :=
  match bindPhase env g.agents with
  | some e => (g, some e)
  | none => connectPhase env { g with id2agent := g.agents.map (fun a => (a.uuid, a)) }

/-! ## Message dispatch -/

/-- A transport payload: either raw bytes (shown here via the string their
UTF-8 decoding yields) or an already-structured value.  `jsonOf s` is the
abstract result of `json.loads(s)`. -/
inductive PyVal
  | bytes (decoded : String)
  | str (s : String)
  | jsonOf (s : String)
deriving DecidableEq, Repr

/-- The decode step of the dispatch loop: a bytes payload is UTF-8 decoded
and passed through `json.loads`; any other payload is forwarded unchanged. -/
def decodePayload : PyVal → PyVal
  | .bytes s => .jsonOf s
  | p => p

/-- One message fetched from the broker. -/
structure BrokerMessage where
  topic : String
  payload : PyVal
deriving DecidableEq, Repr

/-- Python `topic.strip("/")`: remove leading and trailing occurrences of the
character. -/
def pyStrip (c : Char) (s : String) : String :=
  ⟨((s.data.dropWhile (fun x => x = c)).reverse.dropWhile (fun x => x = c)).reverse⟩

/-- Python `str.split(sep)` for a one-character separator, on the character
list: `"a//b".split("/") == ["a", "", "b"]` and `"".split("/") == [""]`. -/
def splitChars (c : Char) : List Char → List (List Char)
  | [] => [[]]
  | x :: rest =>
    match splitChars c rest with
    | [] => if x = c then [[], []] else [[x]]
    | first :: more =>
      if x = c then [] :: first :: more else (x :: first) :: more

/-- `topic.strip("/").split("/")`. -/
def splitTopic (topic : String) : List String :=
  (splitChars '/' (pyStrip '/' topic).data).map (fun l => ⟨l⟩)

/-- A handler call made by the dispatch loop: which agent object, which
topic kind matched the `if/elif` chain, and the payload passed. -/
structure Invocation where
  agent : Agent
  kind : String
  payload : PyVal
deriving DecidableEq, Repr

/-- Dispatch of one message (the body of the `for message in messages` loop):
decode the payload, destructure the topic into five components (a mismatch
raises `ValueError`), look the agent uuid up in `id2agent`; if absent, do
nothing; otherwise invoke the handler matching the topic kind (none of the
four kinds matching invokes nothing). -/
def dispatch_message (g : GroupState) (m : BrokerMessage) :
    List Invocation × Option Err :=
  let payload := decodePayload m.payload
  match splitTopic m.topic with
  | [_, _, _, agentUuid, topicType] =>
    match dictLookup g.id2agent agentUuid with
    | none => ([], none)
    | some a =>
      if topicType = "agent-chat" then ([⟨a, "agent-chat", payload⟩], none)
      else if topicType = "user-chat" then ([⟨a, "user-chat", payload⟩], none)
      else if topicType = "user-survey" then ([⟨a, "user-survey", payload⟩], none)
      else if topicType = "gather" then ([⟨a, "gather", payload⟩], none)
      else ([], none)
  | _ => ([], some .valueError)

/-- One poll cycle of `message_dispatch`: the fetched messages are handled in
order; an uncaught exception from one message aborts the cycle, keeping the
handler invocations already made, and (since the loop body has no
try/except) terminates the whole dispatch task. -/
def dispatch_cycle (g : GroupState) : List BrokerMessage → List Invocation × Option Err
  | [] => ([], none)
  | m :: rest =>
    match dispatch_message g m with
    | (invs, some e) => (invs, some e)
    | (invs, none) =>
      match dispatch_cycle g rest with
      | (invs', e) => (invs ++ invs', e)

/-! ## Snapshot writing, step, run -/

/-- Environment of one step: which agents' `run()` raises (keyed by uuid),
and the values the simulator / clock return while building status records. -/
structure StepEnv where
  runErr : String → Option Err
  day : Int
  t : Int
  createdAt : Int

/-- The `parent_id` extraction of `save_status`: `aoi_position` wins, then
`lane_position`, else the sentinel `-1`. -/
def parentIdOf (p : Position) : Int :=
  match p.aoiId with
  | some x => x
  | none =>
    match p.laneId with
    | some y => y
    | none => -1

/-- One citizen status record as built by `save_status`. -/
def buildCitizenStatus (env : StepEnv) (a : Agent) : CitizenStatus :=
  { id := a.uuid, day := env.day, t := env.t,
    lng := a.position.longlat.longitude, lat := a.position.longlat.latitude,
    parent_id := parentIdOf a.position,
    action := a.intention,
    hungry := a.needs.hungry, tired := a.needs.tired,
    safe := a.needs.safe, social := a.needs.social,
    created_at := env.createdAt }

/-- One institution status record as built by `save_status`. -/
def buildInstitutionStatus (env : StepEnv) (a : Agent) : InstitutionStatus :=
  { id := a.uuid, day := env.day, t := env.t, ty := a.ty,
    nominal_gdp := a.nominalGdp, real_gdp := a.realGdp,
    unemployment := a.unemployment, wages := a.wages, prices := a.prices,
    inventory := a.inventory, price := a.price,
    interest_rate := a.interestRate, bracket_cutoffs := a.bracketCutoffs,
    bracket_rates := a.bracketRates, employees := a.employees,
    customers := a.customers }

/-- `AgentGroup.save_status`: when `enable_avro`, branch on whether
`agents[0]` is an institution (empty `agents` raises `IndexError`), build one
record per agent under that one branch's schema, and append the whole batch
to the status file in a single write. -/
def save_status (env : StepEnv) (g : GroupState) : GroupState × Option Err :=
  if g.enableAvro then
    match g.agents with
    | [] => (g, some .indexError)
    | a0 :: _ =>
      if !a0.isInstitution then
        let batch := g.agents.map (fun a => StatusRecord.citizen (buildCitizenStatus env a))
        ({ g with files := { g.files with
            statusBatches := g.files.statusBatches ++ [(Schema.citizenStatus, batch)] } },
         none)
      else
        let batch := g.agents.map (fun a => StatusRecord.institution (buildInstitutionStatus env a))
        ({ g with files := { g.files with
            statusBatches := g.files.statusBatches ++ [(Schema.institutionStatus, batch)] } },
         none)
  else (g, none)

/-- `asyncio.gather` over `[agent.run() for agent in self.agents]`: the first
failure propagates. -/
def firstRunError (env : StepEnv) : List Agent → Option Err
  | [] => none
  | a :: rest =>
    match env.runErr a.uuid with
    | some e => some e
    | none => firstRunError env rest

/-- `AgentGroup.step`: run `init_agents` when not yet initialized, then
advance every agent and, only after all completed, append the status
snapshot. -/
def step (ienv : InitEnv) (senv : StepEnv) (g : GroupState) : GroupState × Option Err :=
  match (if !g.initialized then init_agents ienv g else (g, none)) with
  | (g', some e) => (g', some e)
  | (g', none) =>
    match firstRunError senv g'.agents with
    | some e => (g', some e)
    | none => save_status senv g'

/-- The `while True` loop of `run`, with fuel for termination.  `simTime k`
is the simulator time read when `k` steps have been issued so far;
`stepErr k` is whether the `k`-th issued step raises.  Returns the number of
steps issued paired with the propagated error, or `none` when the fuel runs
out before the loop exits. -/
def runLoop (simTime : Nat → Nat) (stepErr : Nat → Option Err) (endTime : Nat) :
    Nat → Nat → Option (Nat × Option Err)
  | _, 0 => none
  | stepsDone, fuel + 1 =>
    if simTime stepsDone ≥ endTime then some (stepsDone, none)
    else
      match stepErr stepsDone with
      | some e => some (stepsDone + 1, some e)
      | none => runLoop simTime stepErr endTime (stepsDone + 1) fuel

/-- `AgentGroup.run(day)`: read the start time, set
`end_time = start_time + day * 24 * 3600`, then step while the current time
is below `end_time`. -/
def run (simTime : Nat → Nat) (stepErr : Nat → Option Err) (day : Nat)
    (fuel : Nat) : Option (Nat × Option Err) :=
  runLoop simTime stepErr (simTime 0 + day * 24 * 3600) 0 fuel

/-! ## Concrete fixtures for evaluation -/

/-- A citizen-memory agent with all fields populated. -/
def mkAgent (u : String) (inst : Bool) : Agent :=
  { uuid := u, isInstitution := inst,
    position := { longlat := { longitude := 10, latitude := 20 },
                  aoiId := some 7, laneId := none },
    needs := { hungry := 1, tired := 2, safe := 3, social := 4 },
    intention := "walk", profileBase := "p0",
    ty := 0, nominalGdp := 0, realGdp := 0, unemployment := 0, wages := 0,
    prices := 0, inventory := 0, price := 0, interestRate := 0,
    bracketCutoffs := 0, bracketRates := 0, employees := 0, customers := 0 }

/-- An agent whose position carries neither location sub-shape. -/
def mkAgentNoLoc (u : String) : Agent :=
  { mkAgent u false with
    position := { longlat := { longitude := 10, latitude := 20 },
                  aoiId := none, laneId := none } }

/-- A file state with nothing created yet. -/
def emptyFiles : FileState :=
  { profileWrites := [], dialogCreates := 0, statusFileSchemas := [],
    surveyCreates := 0, statusBatches := [] }

/-- A group as the constructor leaves it: not initialized, empty dict, no
subscriptions, no tasks, no snapshot writes. -/
def freshGroup (agents : List Agent) (expId : String) (avro : Bool) : GroupState :=
  { agents := agents, expId := expId, enableAvro := avro, initialized := false,
    id2agent := [], subscriptions := [], listening := 0, dispatchTasks := 0,
    files := emptyFiles }

/-- An initialization environment where every external call succeeds. -/
def okInitEnv : InitEnv :=
  { bindErr := fun _ => none, connectErr := none, connected := true,
    subscribeErr := fun _ => none }

/-- An initialization environment where the first simulator bind raises. -/
def failBindEnv : InitEnv :=
  { bindErr := fun _ => some (.external "bind"), connectErr := none,
    connected := true, subscribeErr := fun _ => none }

/-- A step environment where every agent's `run()` succeeds. -/
def okStepEnv : StepEnv :=
  { runErr := fun _ => none, day := 3, t := 42, createdAt := 1000 }

/-- A step environment where every agent's `run()` raises. -/
def failStepEnv : StepEnv :=
  { okStepEnv with runErr := fun _ => some (.external "run") }

/-- A group with one known citizen agent `a1` whose dict is populated, for
exercising the dispatch loop. -/
def gDispatch : GroupState :=
  { freshGroup [mkAgent "a1" false] "e1" false with
    id2agent := [("a1", mkAgent "a1" false)] }

/-- The path `s` is scoped under the prefix `p`: the first `p.length`
characters of `s` are exactly `p`. -/
def scopedUnder (p s : String) : Bool :=
  s.data.take p.data.length = p.data

/-- A one-citizen group without snapshots. -/
def gOne : GroupState := freshGroup [mkAgent "a1" false] "e1" false

/-- A one-citizen group with snapshots enabled. -/
def gAvro : GroupState := freshGroup [mkAgent "a1" false] "e1" true

/-- A two-citizen group without snapshots. -/
def gTwo : GroupState := freshGroup [mkAgent "a1" false, mkAgent "a2" false] "e1" false

/-- A group already marked initialized, avro on. -/
def gInitialized : GroupState := { gAvro with initialized := true }

/-- A snapshot-enabled group whose only agent has no location sub-shape. -/
def gNoLoc : GroupState := freshGroup [mkAgentNoLoc "a1"] "e1" true

/-- A snapshot-enabled group whose first agent is a citizen and whose second
agent is an institution. -/
def gMixed : GroupState := freshGroup [mkAgent "a1" false, mkAgent "b1" true] "e1" true

/-- A gather message for the known agent of `gDispatch`, payload as bytes. -/
def mGather : BrokerMessage :=
  { topic := "exps/e1/agents/a1/gather", payload := .bytes "m1" }

/-- A simulator clock advancing one hour per step. -/
def hourly : Nat → Nat := fun k => k * 3600

/-- A run in which no step raises. -/
def noStepErr : Nat → Option Err := fun _ => none

/-! ## Lemma layer -/

theorem bindPhase_ok (env : InitEnv) (as : List Agent)
    (h : ∀ a ∈ as, env.bindErr a.uuid = none) : bindPhase env as = none := by
  induction as with
  | nil => rfl
  | cons a rest ih =>
    have ha := h a (by simp)
    simp [bindPhase, ha]
    exact ih (fun x hx => h x (by simp [hx]))

theorem subscribeTopics_shape (env : InitEnv) (u : String) (ts : List String) :
    ∀ g : GroupState, ∃ s e,
      subscribeTopics env u g ts = ({ g with subscriptions := s }, e) := by
  induction ts with
  | nil => intro g; exact ⟨g.subscriptions, none, rfl⟩
  | cons t rest ih =>
    intro g
    unfold subscribeTopics
    cases henv : env.subscribeErr t with
    | some e => exact ⟨g.subscriptions, some e, rfl⟩
    | none =>
      obtain ⟨s, e, hs⟩ := ih { g with subscriptions := g.subscriptions ++ [(t, u)] }
      exact ⟨s, e, hs⟩

theorem subscribeAgents_shape (env : InitEnv) (as : List Agent) :
    ∀ g : GroupState, ∃ s e,
      subscribeAgents env g as = ({ g with subscriptions := s }, e) := by
  induction as with
  | nil => intro g; exact ⟨g.subscriptions, none, rfl⟩
  | cons a rest ih =>
    intro g
    unfold subscribeAgents
    obtain ⟨s, e, hs⟩ := subscribeTopics_shape env a.uuid (agentTopics g.expId a.uuid) g
    rw [hs]
    cases e with
    | some err => exact ⟨s, some err, rfl⟩
    | none =>
      obtain ⟨s', e', hs'⟩ := ih { g with subscriptions := s }
      exact ⟨s', e', hs'⟩

theorem subscribeTopics_ok (env : InitEnv) (u : String) (ts : List String)
    (h : ∀ t ∈ ts, env.subscribeErr t = none) :
    ∀ g : GroupState, subscribeTopics env u g ts =
      ({ g with subscriptions := g.subscriptions ++ ts.map (fun t => (t, u)) }, none) := by
  induction ts with
  | nil => intro g; simp [subscribeTopics]
  | cons t rest ih =>
    intro g
    have ht := h t (by simp)
    unfold subscribeTopics
    rw [ht]
    rw [ih (fun x hx => h x (by simp [hx]))]
    simp

theorem subscribeAgents_ok (env : InitEnv) (as : List Agent)
    (h : ∀ t, env.subscribeErr t = none) :
    ∀ g : GroupState, subscribeAgents env g as =
      ({ g with subscriptions := g.subscriptions ++
          as.flatMap (fun a => (agentTopics g.expId a.uuid).map (fun t => (t, a.uuid))) }, none) := by
  induction as with
  | nil => intro g; simp [subscribeAgents]
  | cons a rest ih =>
    intro g
    unfold subscribeAgents
    rw [subscribeTopics_ok env a.uuid (agentTopics g.expId a.uuid) (fun t _ => h t) g]
    dsimp only
    rw [ih { g with subscriptions := g.subscriptions ++ (agentTopics g.expId a.uuid).map (fun t => (t, a.uuid)) }]
    simp

theorem writeInitAvro_shape (g : GroupState) :
    writeInitAvro g =
      ({ g with files := (writeAvroFS g.agents g.files).1 },
       (writeAvroFS g.agents g.files).2) := by
  unfold writeInitAvro
  cases h : writeAvroFS g.agents g.files with
  | mk fs e => simp

theorem avroPhase_off (g : GroupState) (h : g.enableAvro = false) :
    avroPhase g = ({ g with initialized := true }, none) := by
  unfold avroPhase
  simp [h]

theorem avroPhase_on_ok (g : GroupState) (h : g.enableAvro = true)
    (hw : (writeAvroFS g.agents g.files).2 = none) :
    avroPhase g =
      ({ g with files := (writeAvroFS g.agents g.files).1, initialized := true },
       none) := by
  unfold avroPhase
  simp [h, writeInitAvro_shape, hw]

theorem avroPhase_on_err (g : GroupState) (h : g.enableAvro = true) (e : Err)
    (hw : (writeAvroFS g.agents g.files).2 = some e) :
    avroPhase g =
      ({ g with files := (writeAvroFS g.agents g.files).1 }, some e) := by
  unfold avroPhase
  simp [h, writeInitAvro_shape, hw]

/-- The avro phase only ever sets `initialized` in a successful return. -/
theorem avroPhase_err_initialized (g : GroupState)
    (he : (avroPhase g).2 ≠ none) :
    (avroPhase g).1.initialized = g.initialized := by
  unfold avroPhase at he ⊢
  revert he
  cases hi : (if g.enableAvro then writeInitAvro g else (g, none)) with
  | mk g' e =>
    intro he
    have hg' : g'.initialized = g.initialized := by
      by_cases ha : g.enableAvro
      · rw [if_pos ha, writeInitAvro_shape] at hi
        have h1 := congrArg Prod.fst hi
        simp only at h1
        rw [← h1]
      · rw [if_neg ha] at hi
        have h1 := congrArg Prod.fst hi
        simp only at h1
        rw [← h1]
    cases e with
    | some err => simpa using hg'
    | none => simp at he

/-- The connect phase never touches `id2agent`, `agents`, `expId`,
`enableAvro`. -/
theorem connectPhase_ok_shape (env : InitEnv) (g : GroupState)
    (hok : (connectPhase env g).2 = none) :
    ∃ s l, (connectPhase env g).1 =
      { g with subscriptions := s, listening := l,
               dispatchTasks := g.dispatchTasks + 1,
               files := if g.enableAvro then (writeAvroFS g.agents g.files).1 else g.files,
               initialized := true } := by
  unfold connectPhase at hok ⊢
  revert hok
  cases h2 : env.connectErr with
  | some e => intro hok; simp at hok
  | none =>
    intro hok
    dsimp only at hok ⊢
    have hsub : ∃ s l e, (if env.connected then
          subscribeAgents env { g with listening := g.listening + 1 } g.agents
        else (g, none)) = ({ g with subscriptions := s, listening := l }, e) := by
      by_cases hc : env.connected
      · rw [if_pos hc]
        obtain ⟨s, e, hs⟩ := subscribeAgents_shape env g.agents
          { g with listening := g.listening + 1 }
        exact ⟨s, g.listening + 1, e, hs⟩
      · rw [if_neg hc]
        exact ⟨g.subscriptions, g.listening, none, rfl⟩
    obtain ⟨s, l, e, hs⟩ := hsub
    rw [hs] at hok ⊢
    cases e with
    | some err => simp at hok
    | none =>
      dsimp only at hok ⊢
      by_cases ha : g.enableAvro
      · cases hw : (writeAvroFS g.agents g.files).2 with
        | some err =>
          rw [avroPhase_on_err
            { g with subscriptions := s, listening := l,
                     dispatchTasks := g.dispatchTasks + 1 } ha err hw] at hok
          simp at hok
        | none =>
          rw [avroPhase_on_ok
            { g with subscriptions := s, listening := l,
                     dispatchTasks := g.dispatchTasks + 1 } ha hw]
          exact ⟨s, l, by simp [ha]⟩
      · have ha' : g.enableAvro = false := by simpa using ha
        rw [avroPhase_off
          { g with subscriptions := s, listening := l,
                   dispatchTasks := g.dispatchTasks + 1 } ha']
        exact ⟨s, l, by simp [ha']⟩

theorem connectPhase_err_initialized (env : InitEnv) (g : GroupState)
    (he : (connectPhase env g).2 ≠ none) :
    (connectPhase env g).1.initialized = g.initialized := by
  unfold connectPhase at he ⊢
  revert he
  cases h2 : env.connectErr with
  | some e => intro he; rfl
  | none =>
    intro he
    dsimp only at he ⊢
    have hsub : ∃ s l e, (if env.connected then
          subscribeAgents env { g with listening := g.listening + 1 } g.agents
        else (g, none)) = ({ g with subscriptions := s, listening := l }, e) := by
      by_cases hc : env.connected
      · rw [if_pos hc]
        obtain ⟨s, e, hs⟩ := subscribeAgents_shape env g.agents
          { g with listening := g.listening + 1 }
        exact ⟨s, g.listening + 1, e, hs⟩
      · rw [if_neg hc]
        exact ⟨g.subscriptions, g.listening, none, rfl⟩
    obtain ⟨s, l, e, hs⟩ := hsub
    rw [hs] at he ⊢
    cases e with
    | some err => rfl
    | none =>
      dsimp only at he ⊢
      exact avroPhase_err_initialized _ he

/-- When `init_agents` returns without an exception, the final state is the
input state with `id2agent` rebuilt, subscriptions and listening possibly
extended, the dispatch-task counter incremented once, the avro files created
when enabled, and `initialized` set. -/
theorem init_agents_ok_shape (env : InitEnv) (g : GroupState)
    (hok : (init_agents env g).2 = none) :
    ∃ s l, (init_agents env g).1 =
      { g with id2agent := g.agents.map (fun a => (a.uuid, a)),
               subscriptions := s, listening := l,
               dispatchTasks := g.dispatchTasks + 1,
               files := if g.enableAvro then (writeAvroFS g.agents g.files).1 else g.files,
               initialized := true } := by
  unfold init_agents at hok ⊢
  revert hok
  cases h1 : bindPhase env g.agents with
  | some e => intro hok; simp at hok
  | none =>
    intro hok
    dsimp only at hok ⊢
    exact connectPhase_ok_shape env _ hok

/-- When `init_agents` raises, `initialized` is left as it was: the flag is
only ever set after every initialization step has completed. -/
theorem init_agents_err_initialized (env : InitEnv) (g : GroupState)
    (he : (init_agents env g).2 ≠ none) :
    (init_agents env g).1.initialized = g.initialized := by
  unfold init_agents at he ⊢
  revert he
  cases h1 : bindPhase env g.agents with
  | some e => intro he; rfl
  | none =>
    intro he
    dsimp only at he ⊢
    exact connectPhase_err_initialized env _ he

theorem dictLookup_not_mem (as : List Agent) (k : String)
    (h : k ∉ as.map Agent.uuid) :
    dictLookup (as.map (fun a => (a.uuid, a))) k = none := by
  induction as with
  | nil => rfl
  | cons a rest ih =>
    simp only [List.map_cons, List.mem_cons, not_or] at h
    unfold dictLookup
    rw [List.map_cons]
    dsimp only
    rw [ih h.2]
    rw [if_neg (fun hh => h.1 hh.symm)]

theorem dictLookup_self (as : List Agent) (hn : (as.map Agent.uuid).Nodup) :
    ∀ a ∈ as, dictLookup (as.map (fun x => (x.uuid, x))) a.uuid = some a := by
  induction as with
  | nil => intro a ha; simp at ha
  | cons b rest ih =>
    intro a ha
    simp only [List.map_cons, List.nodup_cons] at hn
    rcases List.mem_cons.mp ha with h | h
    · subst h
      unfold dictLookup
      rw [List.map_cons]
      dsimp only
      rw [dictLookup_not_mem rest a.uuid hn.1]
      simp
    · unfold dictLookup
      rw [List.map_cons]
      dsimp only
      rw [ih hn.2 a h]

theorem dictLookup_mem (as : List Agent) (k : String)
    (h : dictLookup (as.map (fun a => (a.uuid, a))) k ≠ none) :
    k ∈ as.map Agent.uuid := by
  by_contra hk
  exact h (dictLookup_not_mem as k hk)

theorem firstRunError_ok (env : StepEnv) (as : List Agent)
    (h : ∀ a ∈ as, env.runErr a.uuid = none) : firstRunError env as = none := by
  induction as with
  | nil => rfl
  | cons a rest ih =>
    have ha := h a (by simp)
    unfold firstRunError
    rw [ha]
    exact ih (fun x hx => h x (by simp [hx]))

theorem firstRunError_fail (env : StepEnv) (as : List Agent)
    (h : ∃ a ∈ as, env.runErr a.uuid ≠ none) :
    ∃ e, firstRunError env as = some e := by
  induction as with
  | nil => simp at h
  | cons a rest ih =>
    unfold firstRunError
    cases hr : env.runErr a.uuid with
    | some e => exact ⟨e, rfl⟩
    | none =>
      apply ih
      rcases h with ⟨x, hx, hne⟩
      rcases List.mem_cons.mp hx with h1 | h1
      · subst h1; exact absurd hr hne
      · exact ⟨x, h1, hne⟩

theorem save_status_off (env : StepEnv) (g : GroupState)
    (h : g.enableAvro = false) : save_status env g = (g, none) := by
  unfold save_status
  simp [h]

theorem save_status_citizen (env : StepEnv) (g : GroupState) (a0 : Agent)
    (rest : List Agent) (hag : g.agents = a0 :: rest)
    (hi : a0.isInstitution = false) (hav : g.enableAvro = true) :
    save_status env g =
      ({ g with files := { g.files with
          statusBatches := g.files.statusBatches ++
            [(Schema.citizenStatus,
              g.agents.map (fun a => StatusRecord.citizen (buildCitizenStatus env a)))] } },
       none) := by
  unfold save_status
  rw [hag]
  simp [hav, hi]

theorem save_status_institution (env : StepEnv) (g : GroupState) (a0 : Agent)
    (rest : List Agent) (hag : g.agents = a0 :: rest)
    (hi : a0.isInstitution = true) (hav : g.enableAvro = true) :
    save_status env g =
      ({ g with files := { g.files with
          statusBatches := g.files.statusBatches ++
            [(Schema.institutionStatus,
              g.agents.map (fun a => StatusRecord.institution (buildInstitutionStatus env a)))] } },
       none) := by
  unfold save_status
  rw [hag]
  simp [hav, hi]

theorem writeAvroFS_citizen (a0 : Agent) (rest : List Agent) (fs : FileState)
    (h : a0.isInstitution = false) :
    writeAvroFS (a0 :: rest) fs =
      ({ fs with
          profileWrites := fs.profileWrites ++ [(a0 :: rest).map buildProfile],
          dialogCreates := fs.dialogCreates + 1,
          statusFileSchemas := fs.statusFileSchemas ++ [Schema.citizenStatus],
          surveyCreates := fs.surveyCreates + 1 }, none) := by
  unfold writeAvroFS
  simp [h]

theorem writeAvroFS_institution (a0 : Agent) (rest : List Agent) (fs : FileState)
    (h : a0.isInstitution = true) :
    writeAvroFS (a0 :: rest) fs =
      ({ fs with
          dialogCreates := fs.dialogCreates + 1,
          statusFileSchemas := fs.statusFileSchemas ++ [Schema.institutionStatus],
          surveyCreates := fs.surveyCreates + 1 }, none) := by
  unfold writeAvroFS
  simp [h]

theorem avroPhase_fst_subscriptions (g : GroupState) :
    (avroPhase g).1.subscriptions = g.subscriptions := by
  unfold avroPhase
  by_cases ha : g.enableAvro
  · rw [if_pos ha, writeInitAvro_shape]
    cases hw : (writeAvroFS g.agents g.files).2 <;> simp
  · rw [if_neg ha]

theorem save_status_preserves (env : StepEnv) (g : GroupState) :
    (save_status env g).1.subscriptions = g.subscriptions ∧
    (save_status env g).1.dispatchTasks = g.dispatchTasks ∧
    (save_status env g).1.listening = g.listening ∧
    (save_status env g).1.initialized = g.initialized ∧
    (save_status env g).1.files.profileWrites = g.files.profileWrites ∧
    (save_status env g).1.files.statusFileSchemas = g.files.statusFileSchemas ∧
    (save_status env g).1.files.dialogCreates = g.files.dialogCreates ∧
    (save_status env g).1.files.surveyCreates = g.files.surveyCreates := by
  unfold save_status
  by_cases ha : g.enableAvro
  · rw [if_pos ha]
    cases hag : g.agents with
    | nil => simp
    | cons a0 rest =>
      by_cases hi : a0.isInstitution = true
      · simp [hi]
      · simp at hi
        simp [hi]
  · rw [if_neg ha]
    simp

/-! ## Claim theorems -/

/-- C3, counterexample: after a successful initialization with the broker
connected, the group subscribed its agent to four topics, but none of them
is scoped under the prefix `experiments/{experimentId}/agents/{agentId}/`
that the claim states — the source builds `exps/...` topics. -/
theorem C3_counterexample :
    ((init_agents okInitEnv gOne).2 = none)
    ∧ ((init_agents okInitEnv gOne).1.subscriptions.map Prod.fst
        = ["exps/e1/agents/a1/agent-chat", "exps/e1/agents/a1/user-chat",
           "exps/e1/agents/a1/user-survey", "exps/e1/agents/a1/gather"])
    ∧ (∀ t ∈ (init_agents okInitEnv gOne).1.subscriptions.map Prod.fst,
        scopedUnder "experiments/e1/agents/a1/" t = false) := by
  decide

/-- C3, amended: during initialization, when the broker connection succeeds
(and no external call raises), the group subscribes every owned agent to
exactly four topics scoped under the prefix `exps/{experimentId}/agents/{agentId}/`
with the per-kind suffixes agent-chat, user-chat, user-survey and gather. -/
theorem C3_init_subscribes_four_topics (env : InitEnv) (g : GroupState)
    (hb : ∀ a ∈ g.agents, env.bindErr a.uuid = none)
    (hc : env.connectErr = none)
    (hconn : env.connected = true)
    (hs : ∀ t, env.subscribeErr t = none) :
    ((init_agents env g).1.subscriptions =
      g.subscriptions ++ g.agents.flatMap (fun a =>
        [(topicOf g.expId a.uuid "agent-chat", a.uuid),
         (topicOf g.expId a.uuid "user-chat", a.uuid),
         (topicOf g.expId a.uuid "user-survey", a.uuid),
         (topicOf g.expId a.uuid "gather", a.uuid)]))
    ∧ (∀ e u k, scopedUnder ("exps/" ++ e ++ "/agents/" ++ u ++ "/") (topicOf e u k) = true) := by
  constructor
  · unfold init_agents
    rw [bindPhase_ok env g.agents hb]
    dsimp only
    unfold connectPhase
    rw [hc]
    dsimp only
    rw [if_pos hconn]
    rw [subscribeAgents_ok env g.agents hs]
    dsimp only
    rw [avroPhase_fst_subscriptions]
    simp [agentTopics]
  · intro e u k
    unfold scopedUnder topicOf
    simp only [String.data_append, decide_eq_true_eq]
    rw [List.take_left]

/-- C3 witness: the amended theorem applied to the concrete one-agent
group with an all-successful environment. -/
theorem C3_witness :
    (∀ a ∈ gOne.agents, okInitEnv.bindErr a.uuid = none)
    ∧ okInitEnv.connectErr = none
    ∧ okInitEnv.connected = true
    ∧ (∀ t, okInitEnv.subscribeErr t = none)
    ∧ (((init_agents okInitEnv gOne).1.subscriptions =
        gOne.subscriptions ++ gOne.agents.flatMap (fun a =>
          [(topicOf gOne.expId a.uuid "agent-chat", a.uuid),
           (topicOf gOne.expId a.uuid "user-chat", a.uuid),
           (topicOf gOne.expId a.uuid "user-survey", a.uuid),
           (topicOf gOne.expId a.uuid "gather", a.uuid)]))
       ∧ (∀ e u k, scopedUnder ("exps/" ++ e ++ "/agents/" ++ u ++ "/") (topicOf e u k) = true)) :=
  ⟨by decide, rfl, rfl, fun _ => rfl,
   C3_init_subscribes_four_topics okInitEnv gOne (by decide) rfl rfl (fun _ => rfl)⟩

/-- C1, counterexample: `init_agents` itself has no guard on `initialized`.
After a first successful `init_agents` (which completes and marks the group
initialized), a second direct invocation doubles the broker subscriptions,
launches a second dispatch task, and re-creates the status snapshot file. -/
theorem C1_counterexample :
    ((init_agents okInitEnv gAvro).2 = none)
    ∧ ((init_agents okInitEnv gAvro).1.initialized = true)
    ∧ ((init_agents okInitEnv gAvro).1.subscriptions.length = 4)
    ∧ ((init_agents okInitEnv gAvro).1.dispatchTasks = 1)
    ∧ ((init_agents okInitEnv gAvro).1.files.statusFileSchemas.length = 1)
    ∧ ((init_agents okInitEnv (init_agents okInitEnv gAvro).1).1.subscriptions.length = 8)
    ∧ ((init_agents okInitEnv (init_agents okInitEnv gAvro).1).1.dispatchTasks = 2)
    ∧ ((init_agents okInitEnv (init_agents okInitEnv gAvro).1).1.files.statusFileSchemas.length = 2) := by
  decide

/-- C1, amended: idempotence is enforced by `step()`, not by `init_agents`:
`step` invokes `init_agents` only when the group is not initialized, so once
`initialized` is true a `step` performs no broker subscription, no
`start_listening`, no dispatch-task launch and no snapshot-file creation; a
direct second `init_agents` call, by contrast, repeats all of them. -/
theorem C1_step_guard (ienv : InitEnv) (senv : StepEnv) (g : GroupState)
    (h : g.initialized = true) :
    (step ienv senv g).1.subscriptions = g.subscriptions ∧
    (step ienv senv g).1.dispatchTasks = g.dispatchTasks ∧
    (step ienv senv g).1.listening = g.listening ∧
    (step ienv senv g).1.files.profileWrites = g.files.profileWrites ∧
    (step ienv senv g).1.files.statusFileSchemas = g.files.statusFileSchemas ∧
    (step ienv senv g).1.files.dialogCreates = g.files.dialogCreates ∧
    (step ienv senv g).1.files.surveyCreates = g.files.surveyCreates := by
  unfold step
  rw [h]
  simp only [Bool.not_true, Bool.false_eq_true, if_false]
  cases hr : firstRunError senv g.agents with
  | some e => exact ⟨rfl, rfl, rfl, rfl, rfl, rfl, rfl⟩
  | none =>
    dsimp only
    have hp := save_status_preserves senv g
    exact ⟨hp.1, hp.2.1, hp.2.2.1, hp.2.2.2.2.1, hp.2.2.2.2.2.1,
           hp.2.2.2.2.2.2.1, hp.2.2.2.2.2.2.2⟩

/-- C1 witness: the amended theorem applied to a concrete initialized
group. -/
theorem C1_witness :
    gInitialized.initialized = true ∧
    ((step okInitEnv okStepEnv gInitialized).1.subscriptions = gInitialized.subscriptions ∧
     (step okInitEnv okStepEnv gInitialized).1.dispatchTasks = gInitialized.dispatchTasks ∧
     (step okInitEnv okStepEnv gInitialized).1.listening = gInitialized.listening ∧
     (step okInitEnv okStepEnv gInitialized).1.files.profileWrites = gInitialized.files.profileWrites ∧
     (step okInitEnv okStepEnv gInitialized).1.files.statusFileSchemas = gInitialized.files.statusFileSchemas ∧
     (step okInitEnv okStepEnv gInitialized).1.files.dialogCreates = gInitialized.files.dialogCreates ∧
     (step okInitEnv okStepEnv gInitialized).1.files.surveyCreates = gInitialized.files.surveyCreates) :=
  ⟨rfl, C1_step_guard okInitEnv okStepEnv gInitialized rfl⟩

/-- C7: if the simulator-binding loop or the broker connect/subscribe phase
(or any later phase) of `init_agents` raises, the exception propagates and
the `initialized` flag remains false — it is set only after every
initialization step has completed. -/
theorem C7_init_failure_atomic (env : InitEnv) (g : GroupState) (e : Err)
    (h0 : g.initialized = false) (he : (init_agents env g).2 = some e) :
    (init_agents env g).1.initialized = false := by
  have hne : (init_agents env g).2 ≠ none := by rw [he]; simp
  rw [init_agents_err_initialized env g hne, h0]

/-- C7 witness: a failing simulator bind on the concrete one-agent group
leaves `initialized` false. -/
theorem C7_witness :
    gAvro.initialized = false
    ∧ (init_agents failBindEnv gAvro).2 = some (.external "bind")
    ∧ (init_agents failBindEnv gAvro).1.initialized = false :=
  ⟨rfl, by decide,
   C7_init_failure_atomic failBindEnv gAvro (.external "bind") rfl (by decide)⟩

/-- C9: after `init_agents` completes successfully, the id→agent dict maps
every owned agent's uuid to that agent, and contains no other keys. -/
theorem C9_mapping_complete (env : InitEnv) (g : GroupState)
    (hn : (g.agents.map Agent.uuid).Nodup)
    (hok : (init_agents env g).2 = none) :
    (∀ a ∈ g.agents, dictLookup (init_agents env g).1.id2agent a.uuid = some a)
    ∧ (∀ k, dictLookup (init_agents env g).1.id2agent k ≠ none →
        k ∈ g.agents.map Agent.uuid) := by
  obtain ⟨s, l, hshape⟩ := init_agents_ok_shape env g hok
  rw [hshape]
  dsimp only
  exact ⟨dictLookup_self g.agents hn, fun k hk => dictLookup_mem g.agents k hk⟩

/-- C9 witness: the mapping property on the concrete two-agent group. -/
theorem C9_witness :
    ((gTwo.agents.map Agent.uuid).Nodup)
    ∧ ((init_agents okInitEnv gTwo).2 = none)
    ∧ ((∀ a ∈ gTwo.agents, dictLookup (init_agents okInitEnv gTwo).1.id2agent a.uuid = some a)
       ∧ (∀ k, dictLookup (init_agents okInitEnv gTwo).1.id2agent k ≠ none →
           k ∈ gTwo.agents.map Agent.uuid)) :=
  ⟨by decide, by decide, C9_mapping_complete okInitEnv gTwo (by decide) (by decide)⟩

theorem dispatch_message_wf (g : GroupState) (m : BrokerMessage)
    (h : ∃ p1 p2 p3 u k, splitTopic m.topic = [p1, p2, p3, u, k]) :
    (dispatch_message g m).2 = none := by
  obtain ⟨p1, p2, p3, u, k, hs⟩ := h
  unfold dispatch_message
  rw [hs]
  dsimp only
  cases dictLookup g.id2agent u with
  | none => rfl
  | some a =>
    dsimp only
    repeat' split
    all_goals rfl

/-- C2, counterexample: a malformed topic (here, one path component instead
of five) raises `ValueError` out of the dispatch cycle — the message is not
merely skipped, the exception propagates and terminates the dispatch task. -/
theorem C2_counterexample :
    dispatch_cycle gDispatch [{ topic := "bad-topic", payload := .str "x" }]
      = ([], some .valueError) := by
  decide

/-- C2, amended: a message whose topic splits into five components but whose
agent id is unknown is skipped without error and the cycle continues — a
whole cycle of five-component topics never errors; but a message whose topic
does not split into exactly five components raises an uncaught `ValueError`
that propagates out of the dispatch loop and terminates it. -/
theorem C2_dispatch_errors (g : GroupState) :
    (∀ msgs : List BrokerMessage,
      (∀ m ∈ msgs, ∃ p1 p2 p3 u k, splitTopic m.topic = [p1, p2, p3, u, k]) →
      (dispatch_cycle g msgs).2 = none)
    ∧ (∀ m : BrokerMessage, ∀ p1 p2 p3 u k,
        splitTopic m.topic = [p1, p2, p3, u, k] →
        dictLookup g.id2agent u = none → dispatch_message g m = ([], none))
    ∧ (∀ m : BrokerMessage,
        (¬ ∃ p1 p2 p3 u k, splitTopic m.topic = [p1, p2, p3, u, k]) →
        dispatch_message g m = ([], some .valueError)) := by
  refine ⟨?_, ?_, ?_⟩
  · intro msgs hall
    induction msgs with
    | nil => rfl
    | cons m rest ih =>
      unfold dispatch_cycle
      have h1 := dispatch_message_wf g m (hall m (by simp))
      cases hdm : dispatch_message g m with
      | mk invs e =>
        rw [hdm] at h1
        dsimp only at h1
        subst h1
        dsimp only
        cases hdc : dispatch_cycle g rest with
        | mk invs' e' =>
          have h2 := ih (fun x hx => hall x (by simp [hx]))
          rw [hdc] at h2
          exact h2
  · intro m p1 p2 p3 u k hs hl
    unfold dispatch_message
    rw [hs]
    dsimp only
    rw [hl]
  · intro m hno
    unfold dispatch_message
    rcases hs : splitTopic m.topic with _ | ⟨x1, _ | ⟨x2, _ | ⟨x3, _ | ⟨x4, _ | ⟨x5, _ | ⟨x6, t⟩⟩⟩⟩⟩⟩
    · rfl
    · rfl
    · rfl
    · rfl
    · rfl
    · exact absurd ⟨x1, x2, x3, x4, x5, hs⟩ hno
    · rfl

/-- C2 witness: the amended theorem's three parts at concrete inputs — a
known-shape unknown-agent message is skipped with no error, and a malformed
topic yields the `ValueError`. -/
theorem C2_witness :
    ((dispatch_cycle gDispatch
        [{ topic := "exps/e1/agents/zz/gather", payload := .str "x" }]).2 = none)
    ∧ (dispatch_message gDispatch
        { topic := "exps/e1/agents/zz/gather", payload := .str "x" } = ([], none))
    ∧ (dispatch_message gDispatch
        { topic := "bad-topic", payload := .str "x" } = ([], some .valueError)) :=
  ⟨(C2_dispatch_errors gDispatch).1
      [{ topic := "exps/e1/agents/zz/gather", payload := .str "x" }]
      (by
        intro m hm
        simp only [List.mem_singleton] at hm
        subst hm
        exact ⟨"exps", "e1", "agents", "zz", "gather", by decide⟩),
   (C2_dispatch_errors gDispatch).2.1
      { topic := "exps/e1/agents/zz/gather", payload := .str "x" }
      "exps" "e1" "agents" "zz" "gather" (by decide) (by decide),
   (C2_dispatch_errors gDispatch).2.2
      { topic := "bad-topic", payload := .str "x" }
      (by
        rintro ⟨p1, p2, p3, u, k, h⟩
        rw [show splitTopic "bad-topic" = ["bad-topic"] from by decide] at h
        simp at h)⟩

/-- C6: for a message whose five-component topic names one of the four
message kinds and an agent id in the dict, the matching handler of exactly
that agent is invoked exactly once with the decoded payload (a bytes payload
is UTF-8 decoded and JSON-parsed first); for an unknown agent id, no handler
is invoked and no error is raised. -/
theorem C6_dispatch_exact (g : GroupState) (m : BrokerMessage)
    (p1 p2 p3 u k : String)
    (hsplit : splitTopic m.topic = [p1, p2, p3, u, k])
    (hk : k = "agent-chat" ∨ k = "user-chat" ∨ k = "user-survey" ∨ k = "gather") :
    (∀ a, dictLookup g.id2agent u = some a →
      dispatch_message g m = ([⟨a, k, decodePayload m.payload⟩], none))
    ∧ (dictLookup g.id2agent u = none → dispatch_message g m = ([], none))
    ∧ (∀ s, decodePayload (PyVal.bytes s) = PyVal.jsonOf s) := by
  refine ⟨?_, ?_, fun s => rfl⟩
  · intro a ha
    unfold dispatch_message
    rw [hsplit]
    dsimp only
    rw [ha]
    rcases hk with h | h | h | h <;> subst h <;> simp
  · intro hnone
    unfold dispatch_message
    rw [hsplit]
    dsimp only
    rw [hnone]

/-- C6 witness: a gather message with a bytes payload for the known agent of
`gDispatch` invokes its gather handler once with the decoded payload. -/
theorem C6_witness :
    (splitTopic mGather.topic = ["exps", "e1", "agents", "a1", "gather"])
    ∧ ("gather" = "agent-chat" ∨ "gather" = "user-chat"
        ∨ "gather" = "user-survey" ∨ "gather" = "gather")
    ∧ ((∀ a, dictLookup gDispatch.id2agent "a1" = some a →
          dispatch_message gDispatch mGather
            = ([⟨a, "gather", decodePayload mGather.payload⟩], none))
       ∧ (dictLookup gDispatch.id2agent "a1" = none →
          dispatch_message gDispatch mGather = ([], none))
       ∧ (∀ s, decodePayload (PyVal.bytes s) = PyVal.jsonOf s)) :=
  ⟨by decide, by decide,
   C6_dispatch_exact gDispatch mGather "exps" "e1" "agents" "a1" "gather"
     (by decide) (by decide)⟩

/-- C4: `step` on an initialized group appends a status batch only when
every agent's step-advance has completed; the first agent failure propagates
out of `step` unchanged, with no snapshot append; and when every agent
completes (snapshots on, non-empty group), `step` returns cleanly having
appended exactly one batch. -/
theorem C4_step_barrier (ienv : InitEnv) (senv : StepEnv) (g : GroupState)
    (hinit : g.initialized = true) :
    ((step ienv senv g).1.files.statusBatches ≠ g.files.statusBatches →
      ∀ a ∈ g.agents, senv.runErr a.uuid = none)
    ∧ (∀ e, firstRunError senv g.agents = some e →
        step ienv senv g = (g, some e))
    ∧ ((∀ a ∈ g.agents, senv.runErr a.uuid = none) → g.enableAvro = true →
        g.agents ≠ [] →
        (step ienv senv g).2 = none ∧
        ∃ b, (step ienv senv g).1.files.statusBatches
          = g.files.statusBatches ++ [b]) := by
  have hstep : step ienv senv g =
      (match firstRunError senv g.agents with
       | some e => (g, some e)
       | none => save_status senv g) := by
    unfold step
    rw [hinit]
    rfl
  refine ⟨?_, ?_, ?_⟩
  · intro hne a ha
    by_contra hno
    obtain ⟨e, hfe⟩ := firstRunError_fail senv g.agents ⟨a, ha, hno⟩
    apply hne
    rw [hstep, hfe]
  · intro e he
    rw [hstep, he]
  · intro hall hav hne
    have hfr := firstRunError_ok senv g.agents hall
    rw [hstep, hfr]
    dsimp only
    obtain ⟨a0, rest, hag⟩ : ∃ a0 rest, g.agents = a0 :: rest := by
      cases hl : g.agents with
      | nil => exact absurd hl hne
      | cons x xs => exact ⟨x, xs, rfl⟩
    by_cases hi : a0.isInstitution = true
    · rw [save_status_institution senv g a0 rest hag hi hav]
      exact ⟨rfl, ⟨_, rfl⟩⟩
    · have hi' : a0.isInstitution = false := by simpa using hi
      rw [save_status_citizen senv g a0 rest hag hi' hav]
      exact ⟨rfl, ⟨_, rfl⟩⟩

/-- C4 witness: the barrier properties at the concrete initialized group. -/
theorem C4_witness :
    gInitialized.initialized = true
    ∧ (((step okInitEnv okStepEnv gInitialized).1.files.statusBatches
          ≠ gInitialized.files.statusBatches →
        ∀ a ∈ gInitialized.agents, okStepEnv.runErr a.uuid = none)
       ∧ (∀ e, firstRunError okStepEnv gInitialized.agents = some e →
          step okInitEnv okStepEnv gInitialized = (gInitialized, some e))
       ∧ ((∀ a ∈ gInitialized.agents, okStepEnv.runErr a.uuid = none) →
          gInitialized.enableAvro = true → gInitialized.agents ≠ [] →
          (step okInitEnv okStepEnv gInitialized).2 = none ∧
          ∃ b, (step okInitEnv okStepEnv gInitialized).1.files.statusBatches
            = gInitialized.files.statusBatches ++ [b])) :=
  ⟨rfl, C4_step_barrier okInitEnv okStepEnv gInitialized rfl⟩

theorem runLoop_exact (simTime : Nat → Nat) (stepErr : Nat → Option Err)
    (endTime : Nat) :
    ∀ n s fuel, (∀ k, k < n → simTime (s + k) < endTime) →
    simTime (s + n) ≥ endTime →
    (∀ k, k < n → stepErr (s + k) = none) → n < fuel →
    runLoop simTime stepErr endTime s fuel = some (s + n, none) := by
  intro n
  induction n with
  | zero =>
    intro s fuel h1 h2 h3 hf
    cases fuel with
    | zero => omega
    | succ f =>
      unfold runLoop
      rw [if_pos (by simpa using h2)]
      simp
  | succ m ih =>
    intro s fuel h1 h2 h3 hf
    cases fuel with
    | zero => omega
    | succ f =>
      unfold runLoop
      rw [if_neg (by
        have := h1 0 (by omega)
        simpa using Nat.not_le_of_lt this)]
      have hs0 : stepErr s = none := by simpa using h3 0 (by omega)
      rw [hs0]
      have hrec := ih (s + 1) f
        (fun k hk => by
          have e1 : s + 1 + k = s + (k + 1) := by omega
          rw [e1]
          exact h1 (k + 1) (by omega))
        (by
          have e1 : s + 1 + m = s + (m + 1) := by omega
          rw [e1]
          exact h2)
        (fun k hk => by
          have e1 : s + 1 + k = s + (k + 1) := by omega
          rw [e1]
          exact h3 (k + 1) (by omega))
        (by omega)
      rw [hrec]
      have e2 : s + 1 + m = s + (m + 1) := by omega
      rw [e2]

/-- C5: `run(d)` computes the end time `t0 + d*86400` from the simulator
start time `t0`, checks the simulator clock before each step, issues a step
only while the current time is below the end time, and returns — without
issuing a further step — as soon as the clock reading reaches the end time:
it issues exactly the first `n` steps, where `n` is the first clock reading
at or past the end time. -/
theorem C5_run_termination (simTime : Nat → Nat) (stepErr : Nat → Option Err)
    (d n fuel : Nat)
    (hend : simTime n ≥ simTime 0 + d * 86400)
    (hbefore : ∀ k, k < n → simTime k < simTime 0 + d * 86400)
    (hok : ∀ k, k < n → stepErr k = none)
    (hfuel : n < fuel) :
    run simTime stepErr d fuel = some (n, none) := by
  unfold run
  have h86400 : simTime 0 + d * 24 * 3600 = simTime 0 + d * 86400 := by ring
  rw [h86400]
  have hl := runLoop_exact simTime stepErr (simTime 0 + d * 86400) n 0 fuel
    (fun k hk => by simpa using hbefore k hk)
    (by simpa using hend)
    (fun k hk => by simpa using hok k hk)
    hfuel
  simpa using hl

/-- C5 witness: with an hourly clock and one day, `run` issues exactly 24
steps and stops. -/
theorem C5_witness :
    (hourly 24 ≥ hourly 0 + 1 * 86400)
    ∧ (∀ k, k < 24 → hourly k < hourly 0 + 1 * 86400)
    ∧ (∀ k, k < 24 → noStepErr k = none)
    ∧ (24 < 30)
    ∧ run hourly noStepErr 1 30 = some (24, none) :=
  ⟨by decide, by decide, fun _ _ => rfl, by decide,
   C5_run_termination hourly noStepErr 1 24 30 (by decide) (by decide)
     (fun _ _ => rfl) (by decide)⟩

/-- C8: in `save_status` for a citizen-variant group, an agent whose position
carries neither `aoi_position` nor `lane_position` still yields a status
record — with the sentinel parent id `-1` — and the batch append for all
agents of the group proceeds without raising. -/
theorem C8_sentinel (env : StepEnv) (g : GroupState) (a : Agent)
    (hav : g.enableAvro = true)
    (hhead : ∀ a0, g.agents.head? = some a0 → a0.isInstitution = false)
    (hmem : a ∈ g.agents)
    (haoi : a.position.aoiId = none) (hlane : a.position.laneId = none) :
    (save_status env g).2 = none
    ∧ (save_status env g).1.files.statusBatches =
        g.files.statusBatches ++
          [(Schema.citizenStatus,
            g.agents.map (fun x => StatusRecord.citizen (buildCitizenStatus env x)))]
    ∧ StatusRecord.citizen (buildCitizenStatus env a) ∈
        g.agents.map (fun x => StatusRecord.citizen (buildCitizenStatus env x))
    ∧ (buildCitizenStatus env a).parent_id = -1 := by
  obtain ⟨a0, rest, hag⟩ : ∃ a0 rest, g.agents = a0 :: rest := by
    cases hl : g.agents with
    | nil => rw [hl] at hmem; simp at hmem
    | cons x xs => exact ⟨x, xs, rfl⟩
  have hi : a0.isInstitution = false := hhead a0 (by rw [hag]; rfl)
  rw [save_status_citizen env g a0 rest hag hi hav]
  refine ⟨rfl, rfl, List.mem_map_of_mem _ hmem, ?_⟩
  show parentIdOf a.position = -1
  unfold parentIdOf
  rw [haoi, hlane]

/-- C8 witness: the sentinel property at the concrete location-less agent. -/
theorem C8_witness :
    gNoLoc.enableAvro = true
    ∧ (∀ a0, gNoLoc.agents.head? = some a0 → a0.isInstitution = false)
    ∧ mkAgentNoLoc "a1" ∈ gNoLoc.agents
    ∧ (mkAgentNoLoc "a1").position.aoiId = none
    ∧ (mkAgentNoLoc "a1").position.laneId = none
    ∧ ((save_status okStepEnv gNoLoc).2 = none
       ∧ (save_status okStepEnv gNoLoc).1.files.statusBatches =
           gNoLoc.files.statusBatches ++
             [(Schema.citizenStatus,
               gNoLoc.agents.map (fun x => StatusRecord.citizen (buildCitizenStatus okStepEnv x)))]
       ∧ StatusRecord.citizen (buildCitizenStatus okStepEnv (mkAgentNoLoc "a1")) ∈
           gNoLoc.agents.map (fun x => StatusRecord.citizen (buildCitizenStatus okStepEnv x))
       ∧ (buildCitizenStatus okStepEnv (mkAgentNoLoc "a1")).parent_id = -1) :=
  ⟨rfl,
   (by
     intro a0 h
     have h1 : mkAgentNoLoc "a1" = a0 := by simpa [gNoLoc, freshGroup] using h
     rw [← h1]
     rfl),
   by decide, by decide, by decide,
   C8_sentinel okStepEnv gNoLoc (mkAgentNoLoc "a1") rfl
     (by
       intro a0 h
       have h1 : mkAgentNoLoc "a1" = a0 := by simpa [gNoLoc, freshGroup] using h
       rw [← h1]
       rfl)
     (by decide) (by decide) (by decide)⟩

/-- C10: for a non-empty snapshot-enabled group, both the init-time decisions
(whether a profile snapshot is written; which schema the status file is
created with) and the whole `save_status` batch (schema and record shape of
every agent) are decided solely by whether the FIRST agent is an
institution; the other agents' variants are never consulted — every agent in
the group is recorded under the first agent's schema. -/
theorem C10_first_agent_decides (senv : StepEnv) (ienv : InitEnv)
    (g : GroupState) (a0 : Agent) (rest : List Agent)
    (hag : g.agents = a0 :: rest) (hav : g.enableAvro = true) :
    ((save_status senv g).1.files.statusBatches = g.files.statusBatches ++
      [if a0.isInstitution then
        (Schema.institutionStatus,
         g.agents.map (fun x => StatusRecord.institution (buildInstitutionStatus senv x)))
       else
        (Schema.citizenStatus,
         g.agents.map (fun x => StatusRecord.citizen (buildCitizenStatus senv x)))])
    ∧ ((init_agents ienv g).2 = none →
        (init_agents ienv g).1.files.profileWrites =
          g.files.profileWrites ++
            (if a0.isInstitution then [] else [g.agents.map buildProfile])
        ∧ (init_agents ienv g).1.files.statusFileSchemas =
          g.files.statusFileSchemas ++
            [if a0.isInstitution then Schema.institutionStatus else Schema.citizenStatus]) := by
  constructor
  · by_cases hi : a0.isInstitution = true
    · rw [save_status_institution senv g a0 rest hag hi hav]
      simp [hi]
    · have hi' : a0.isInstitution = false := by simpa using hi
      rw [save_status_citizen senv g a0 rest hag hi' hav]
      simp [hi']
  · intro hok
    obtain ⟨s, l, hshape⟩ := init_agents_ok_shape ienv g hok
    rw [hshape]
    dsimp only
    rw [if_pos hav, hag]
    by_cases hi : a0.isInstitution = true
    · rw [writeAvroFS_institution a0 rest g.files hi]
      simp [hi]
    · have hi' : a0.isInstitution = false := by simpa using hi
      rw [writeAvroFS_citizen a0 rest g.files hi']
      simp [hi']

/-- C10 witness: a mixed group (citizen first, institution second) is
snapshotted entirely under the citizen schema, and its profile snapshot is
written. -/
theorem C10_witness :
    gMixed.agents = [mkAgent "a1" false, mkAgent "b1" true]
    ∧ gMixed.enableAvro = true
    ∧ (((save_status okStepEnv gMixed).1.files.statusBatches = gMixed.files.statusBatches ++
        [if (mkAgent "a1" false).isInstitution then
          (Schema.institutionStatus,
           gMixed.agents.map (fun x => StatusRecord.institution (buildInstitutionStatus okStepEnv x)))
         else
          (Schema.citizenStatus,
           gMixed.agents.map (fun x => StatusRecord.citizen (buildCitizenStatus okStepEnv x)))])
       ∧ ((init_agents okInitEnv gMixed).2 = none →
          (init_agents okInitEnv gMixed).1.files.profileWrites =
            gMixed.files.profileWrites ++
              (if (mkAgent "a1" false).isInstitution then []
               else [gMixed.agents.map buildProfile])
          ∧ (init_agents okInitEnv gMixed).1.files.statusFileSchemas =
            gMixed.files.statusFileSchemas ++
              [if (mkAgent "a1" false).isInstitution then Schema.institutionStatus
               else Schema.citizenStatus])) :=
  ⟨rfl, rfl,
   C10_first_agent_decides okStepEnv okInitEnv gMixed (mkAgent "a1" false)
     [mkAgent "b1" true] rfl rfl⟩

end AgentGroupModel
